import Mathlib

/-!
Shallow embedding of the `dynarray-rs` crate (`src/lib.rs`): a fixed-length
heap-allocated array `DynArray<T>` (a raw pointer plus a length) with
two-phase construction (`new_uninit` / `assume_init`), conversion from
contiguous sources, element-wise destruction, and a consuming iterator
`IntoIter<T>`.

Modelling conventions:
* Addresses are natural numbers (`Ptr`); `0` models the null pointer.
* Because a `DynArray` is the exclusive owner of its block, the values
  stored in the block are carried alongside the pointer as a `List T`.
* `MaybeUninit<T>` is `Option T`: `none` is a slot whose value was never
  written.  Reading such a slot (`assume_init` on an unwritten slot) yields
  an unspecified value, modelled by `default`.
* A panic (`unwrap`, `expect`, `assert!`) is a fatal, non-recoverable stop;
  it is modelled as `Except.error (p : Panic)`.  None of the Rust functions
  returns a `Result`, so an `Except.error` never models a recoverable error.
* The global allocator is modelled by its answer for a call: functions that
  allocate take the returned address `allocRet : Ptr` as a parameter
  (`0` = allocation failure / null).  Element size and alignment of `T`
  (`size_of::<T>()`, `align_of::<T>()`) are parameters `sz al : Nat`.
* Side effects of destruction are event traces: `Event.destroy v` records
  that the destructor of the value `v` ran, `Event.free p l` that the block
  at `p` was returned to the allocator with layout `l`.
-/

/-- A raw address handed out by the allocator; `0` models the null pointer. -/
abbrev Ptr := Nat

/-- `isize::MAX` on a 64-bit target. -/
def isizeMax : Nat := 2 ^ 63 - 1

/-- A memory layout: byte size and alignment, as in `std::alloc::Layout`. -/
structure Layout where
  size : Nat
  align : Nat
deriving DecidableEq, Repr

/-- `Layout::array::<T>(n)` for an element type of size `sz` and alignment
`al`: the byte size is `n * sz`; the computation errs (and the caller's
`unwrap` panics) when the rounded size exceeds `isize::MAX`, i.e. when
`n * sz > isize::MAX - (al - 1)`. -/
def layoutArray (sz al n : Nat) : Option Layout :=
  if n * sz ≤ isizeMax - (al - 1) then some ⟨n * sz, al⟩ else none

/-- The two panic sources of the library: `Layout::array(len).unwrap()`
failing, and the `expect` / `assert!` in `from_iter` firing ("Iterator
provided false size hint"). -/
inductive Panic where
  | layoutError
  | falseSizeHint
deriving DecidableEq, Repr

/-- `MaybeUninit<T>`: `none` models a slot whose value was never written. -/
abbrev MaybeUninit (T : Type) := Option T

/-- `DynArray<T>`: a raw pointer and a length.  The model carries the block
contents (`data`, of length `len`) with the pointer, since the array is the
block's exclusive owner; `data.length` plays the role of the `len` field. -/
structure DynArray (T : Type) where
  ptr : Ptr
  data : List T
deriving DecidableEq, Repr

variable {T : Type}

/-- `DynArray::from_parts(ptr, len)` (unsafe): stores the pointer and the
length.  In the embedding the contents of the block at `ptr` are passed as
`data` (its length is the `len` argument). -/
def DynArray.from_parts (p : Ptr) (data : List T) : DynArray T :=
  ⟨p, data⟩

/-- `DynArray::into_parts(self)`: wraps `self` in `ManuallyDrop` — so no
destructor runs and no event is emitted — and hands the raw pointer and
length to the caller.  The block at `ptr` still holds `data` untouched. -/
def DynArray.into_parts (a : DynArray T) : Ptr × Nat :=
  (a.ptr, a.data.length)

/-- `DynArray::len(&self)`. -/
def DynArray.len (a : DynArray T) : Nat :=
  a.data.length

/-- `DynArray::is_empty(&self)`: `self.len == 0`. -/
def DynArray.is_empty (a : DynArray T) : Bool :=
  a.data.length == 0

/-- `DynArray::new_uninit(len)`: computes `Layout::array::<T>(len)` and
panics (`.unwrap()`) when that fails; otherwise calls `alloc(layout)` and
wraps whatever pointer the allocator returned together with `len`, WITHOUT
checking for null: `allocRet = 0` (allocation failure) is stored like any
other address.  The fresh block's slots are all unwritten. -/
def DynArray.new_uninit (T : Type) (sz al : Nat) (allocRet : Ptr) (len : Nat) :
    Except Panic (DynArray (MaybeUninit T)) :=
  match layoutArray sz al len with
  | none => .error .layoutError
  | some _ => .ok (DynArray.from_parts allocRet (List.replicate len none))

/-- `DynArray::<MaybeUninit<T>>::assume_init(self)`: `into_parts` followed by
`from_parts` at type `T` — a pointer cast, no per-slot check.  Reading a slot
that was never written yields an unspecified value (`default`). -/
def DynArray.assume_init [Inhabited T] (a : DynArray (MaybeUninit T)) : DynArray T :=
  DynArray.from_parts a.ptr (a.data.map (fun x => x.getD default))

/-- The loop of `DynArray::new`: `for elem in dyn_array.iter_mut()
{ elem.write(T::default()) }` — writes the default value into every slot in
index order. -/
def fillDefault (dflt : T) : List (MaybeUninit T) → List (MaybeUninit T)
  | [] => []
  | _ :: rest => some dflt :: fillDefault dflt rest

/-- `DynArray::new(len)` for `T : Default` (`dflt` models `T::default()`):
allocates uninitialized, writes the default into every slot in order, then
`assume_init`. -/
def DynArray.new [Inhabited T] (sz al : Nat) (allocRet : Ptr) (dflt : T) (len : Nat) :
    Except Panic (DynArray T) :=
  match DynArray.new_uninit T sz al allocRet len with
  | .error e => .error e
  | .ok ua => .ok (DynArray.assume_init ⟨ua.ptr, fillDefault dflt ua.data⟩)

/-- An `ExactSizeIterator` producer: `hint` is what `iter.len()` reports at
the start, `items` are the values the producer will actually yield, in
order.  A lying producer has `items.length ≠ hint`. -/
structure ExactIter (T : Type) where
  hint : Nat
  items : List T
deriving DecidableEq, Repr

/-- The loop of `DynArray::from_iter`: for each slot in order, pull
`iter.next()` and `.expect("Iterator provided false size hint")` — a panic
when the producer runs out before the slots do.  Returns the written slots
together with the items the producer still holds. -/
def fillFromIter : List (MaybeUninit T) → List T → Except Panic (List (MaybeUninit T) × List T)
  | [], rest => .ok ([], rest)
  | _ :: _, [] => .error .falseSizeHint
  | _ :: slots, v :: vs =>
    match fillFromIter slots vs with
    | .error e => .error e
    | .ok (written, rest) => .ok (some v :: written, rest)

/-- `DynArray::from_iter(iter)` for an `ExactSizeIterator`: allocates
uninitialized for `iter.len()`, fills every slot from the producer in order
(panicking if it runs dry), then `assert!(iter.next().is_none())` —
panicking if the producer still has items — and finally `assume_init`. -/
def DynArray.from_iter [Inhabited T] (sz al : Nat) (allocRet : Ptr) (it : ExactIter T) :
    Except Panic (DynArray T) :=
  match DynArray.new_uninit T sz al allocRet it.hint with
  | .error e => .error e
  | .ok ua =>
    match fillFromIter ua.data it.items with
    | .error e => .error e
    | .ok (written, rest) =>
      if rest.isEmpty then .ok (DynArray.assume_init ⟨ua.ptr, written⟩)
      else .error .falseSizeHint

/-- `Default for DynArray<T>`: `DynArray::new_uninit(0).assume_init()`. -/
def DynArray.mkDefault (T : Type) [Inhabited T] (sz al : Nat) (allocRet : Ptr) :
    Except Panic (DynArray T) :=
  match DynArray.new_uninit T sz al allocRet 0 with
  | .error e => .error e
  | .ok ua => .ok (DynArray.assume_init ua)

/-- Observable effects of destruction: `destroy v` = the destructor of the
value `v` ran; `free p l` = the block at `p` was released with layout `l`. -/
inductive Event (T : Type) where
  | destroy (v : T)
  | free (p : Ptr) (l : Layout)
deriving DecidableEq, Repr

/-- The loop of `Drop for DynArray<T>`: `for idx in 0..self.len
{ drop(ptr::read(ptr.add(idx))) }` — reads and destroys the value of each
slot, index `0` first, strictly ascending. -/
def dropLoop : List T → List (Event T)
  | [] => []
  | v :: rest => .destroy v :: dropLoop rest

/-- `Drop for DynArray<T>`: destroys every element in ascending index order,
then recomputes `Layout::array::<T>(self.len).unwrap()` and deallocates the
block.  The destroy loop runs before the layout `unwrap`, so its events are
emitted even when the `unwrap` would panic (second component `some _`). -/
def DynArray.dropSelf (sz al : Nat) (a : DynArray T) : List (Event T) × Option Panic :=
  let destroys := dropLoop a.data
  match layoutArray sz al a.data.length with
  | none => (destroys, some .layoutError)
  | some l => (destroys ++ [.free a.ptr l], none)

/-- `IntoIter<T>`: a `DynArray<ManuallyDrop<T>>` plus a cursor `idx`.  The
`ManuallyDrop` wrapper is invisible at the value level (same bytes, same
size and alignment); its effect is captured in `IntoIter.dropSelf`. -/
structure IntoIter (T : Type) where
  dyn_array : DynArray T
  idx : Nat
deriving DecidableEq, Repr

/-- `Iterator::next for IntoIter<T>`: when `idx >= len` return `None` and
leave the state untouched; otherwise increment `idx` and `ptr::read` the
element at the old cursor position out by value. -/
def IntoIter.next [Inhabited T] (it : IntoIter T) : Option T × IntoIter T :=
  if it.dyn_array.data.length ≤ it.idx then (none, it)
  else (some (it.dyn_array.data.getD it.idx default), ⟨it.dyn_array, it.idx + 1⟩)

/-- `IntoIterator for DynArray<T>`: `into_parts` (suppressing the array's
own drop), reinterpret the block as `ManuallyDrop<T>` slots, cursor `0`. -/
def DynArray.intoIter (a : DynArray T) : IntoIter T :=
  ⟨DynArray.from_parts (DynArray.into_parts a).1 a.data, 0⟩

/-- `IntoIter<T>` has no `Drop` impl of its own, so dropping it drops its
`DynArray<ManuallyDrop<T>>` field, whose `Drop` runs the per-slot loop and
then deallocates.  Each loop step drops a `ManuallyDrop<T>` value, which is
a no-op — the inner `T`'s destructor does NOT run — so no `destroy` event is
emitted; only the block release (with `ManuallyDrop<T>`'s layout, identical
to `T`'s) is observable. -/
def IntoIter.dropSelf (sz al : Nat) (it : IntoIter T) : List (Event T) × Option Panic :=
  match layoutArray sz al it.dyn_array.data.length with
  | none => ([], some .layoutError)
  | some l => ([.free it.dyn_array.ptr l], none)

/-- Calls `IntoIter.next` repeatedly — at most `fuel` times — collecting the
yielded values until the iterator reports exhaustion. -/
def drainFuel [Inhabited T] : Nat → IntoIter T → List T
  | 0, _ => []
  | n + 1, it =>
    match IntoIter.next it with
    | (none, _) => []
    | (some v, it2) => v :: drainFuel n it2

/-- The loop of `From<&[T]> for DynArray<T>`: `for (dst, val) in
dyn_array.iter_mut().zip(slice) { dst.write(val.clone()) }` — clones each
source element into the corresponding slot in order. -/
def zipClone (cloneF : T → T) : List (MaybeUninit T) → List T → List (MaybeUninit T)
  | [], _ => []
  | slots, [] => slots
  | _ :: slots, v :: vs => some (cloneF v) :: zipClone cloneF slots vs

/-- `Deref for DynArray<T>`: `slice::from_raw_parts(self.ptr, self.len)` —
the read-only contiguous view is the block's contents. -/
def DynArray.deref (a : DynArray T) : List T :=
  a.data

/-- `From<&[T]> for DynArray<T>` (`T : Clone`; `cloneF` models `T::clone`):
allocates uninitialized for `slice.len()`, clones every source element into
its slot in order, then `assume_init`. -/
def DynArray.from_slice [Inhabited T] (sz al : Nat) (cloneF : T → T) (allocRet : Ptr)
    (s : List T) : Except Panic (DynArray T) :=
  match DynArray.new_uninit T sz al allocRet s.length with
  | .error e => .error e
  | .ok ua => .ok (DynArray.assume_init ⟨ua.ptr, zipClone cloneF ua.data s⟩)

/-- `Clone for DynArray<T>`: `DynArray::from(&**self)` — clones through the
`Deref` view into a freshly allocated block. -/
def DynArray.cloneSelf [Inhabited T] (sz al : Nat) (cloneF : T → T) (allocRet : Ptr)
    (a : DynArray T) : Except Panic (DynArray T) :=
  DynArray.from_slice sz al cloneF allocRet (DynArray.deref a)

/-- Effect on an array `a` of a store of `v` at element index `i` performed
through a mutable view rooted at block address `p` (`DerefMut` exposes the
raw block pointer).  The allocator hands out pairwise-disjoint blocks at
distinct addresses, so the store lands in `a` exactly when `a` owns the
block at `p`. -/
def memWrite (p : Ptr) (i : Nat) (v : T) (a : DynArray T) : DynArray T :=
  if a.ptr = p then ⟨a.ptr, a.data.set i v⟩ else a

/-! ### Helper lemmas -/

theorem dropLoop_eq_map (l : List T) : dropLoop l = l.map Event.destroy := by
  induction l with
  | nil => rfl
  | cons v rest ih => simp [dropLoop, ih]

theorem fillDefault_replicate (d : T) (n : Nat) :
    fillDefault d (List.replicate n (none : MaybeUninit T)) = List.replicate n (some d) := by
  induction n with
  | zero => rfl
  | succ n ih => simp [List.replicate_succ, fillDefault, ih]

theorem assume_init_map_some [Inhabited T] (p : Ptr) (l : List T) :
    DynArray.assume_init ⟨p, l.map some⟩ = DynArray.from_parts p l := by
  simp [DynArray.assume_init, DynArray.from_parts, Function.comp_def]

theorem assume_init_replicate_some [Inhabited T] (p : Ptr) (d : T) (n : Nat) :
    DynArray.assume_init ⟨p, List.replicate n (some d)⟩ =
      DynArray.from_parts p (List.replicate n d) := by
  simp [DynArray.assume_init, DynArray.from_parts, List.map_replicate]

theorem fillFromIter_ge (n : Nat) (items : List T) (h : n ≤ items.length) :
    fillFromIter (List.replicate n (none : MaybeUninit T)) items =
      .ok ((items.take n).map some, items.drop n) := by
  induction n generalizing items with
  | zero => simp [fillFromIter]
  | succ n ih =>
    cases items with
    | nil => simp at h
    | cons v vs =>
      simp only [List.length_cons, Nat.succ_le_succ_iff] at h
      simp [List.replicate_succ, fillFromIter, ih vs h, List.take_succ_cons,
        List.drop_succ_cons]

theorem fillFromIter_lt (n : Nat) (items : List T) (h : items.length < n) :
    fillFromIter (List.replicate n (none : MaybeUninit T)) items =
      .error .falseSizeHint := by
  induction n generalizing items with
  | zero => simp at h
  | succ n ih =>
    cases items with
    | nil => simp [List.replicate_succ, fillFromIter]
    | cons v vs =>
      simp only [List.length_cons, Nat.succ_lt_succ_iff] at h
      simp [List.replicate_succ, fillFromIter, ih vs h]

theorem zipClone_replicate (f : T → T) (s : List T) :
    zipClone f (List.replicate s.length (none : MaybeUninit T)) s =
      s.map (fun x => some (f x)) := by
  induction s with
  | nil => rfl
  | cons v vs ih => simp [List.replicate_succ, zipClone, ih]

theorem drainFuel_exhausted [Inhabited T] (fuel : Nat) (it : IntoIter T)
    (h : it.dyn_array.data.length ≤ it.idx) : drainFuel fuel it = [] := by
  cases fuel with
  | zero => rfl
  | succ n => simp [drainFuel, IntoIter.next, h]

theorem drainFuel_spec [Inhabited T] (rest : List T) (p : Ptr) (l : List T) :
    ∀ (i k : Nat), l.drop i = rest → drainFuel (rest.length + k) ⟨⟨p, l⟩, i⟩ = rest := by
  induction rest with
  | nil =>
    intro i k h
    exact drainFuel_exhausted _ _ (by simpa using List.drop_eq_nil_iff.mp h)
  | cons v vs ih =>
    intro i k h
    have hi : i < l.length := by
      by_contra hge
      rw [List.drop_eq_nil_iff.mpr (Nat.le_of_not_lt hge)] at h
      exact List.noConfusion h
    have hv : l.getD i default = v := by
      have h0 : (l.drop i).head? = some v := by rw [h]; rfl
      rw [List.head?_drop, List.getElem?_eq_getElem hi] at h0
      rw [List.getD_eq_getElem l default hi]
      exact Option.some.inj h0
    have hdrop : l.drop (i + 1) = vs := by
      have ht : (l.drop i).tail = vs := by rw [h]; rfl
      rwa [List.tail_drop] at ht
    have hnext : IntoIter.next (⟨⟨p, l⟩, i⟩ : IntoIter T) =
        (some (l.getD i default), ⟨⟨p, l⟩, i + 1⟩) := by
      simp [IntoIter.next, Nat.not_le.mpr hi]
    simp only [List.length_cons, Nat.succ_add, drainFuel, hnext, hv]
    exact congrArg (v :: ·) (ih (i + 1) k hdrop)

/-! ### Claims -/

/-- Claim C1: dropping an initialized array of length `N` destroys the value
at every index in `[0, N)` exactly once, in strictly ascending index order
(the destroy-event list is the element list in index order), and then
releases the block with layout `l` — the layout `Layout::array::<T>(N)`,
which is exactly what was computed at allocation time for the same element
type and the same length. -/
theorem c1_drop_destroys_in_order_then_frees (sz al : Nat) {T : Type} (a : DynArray T)
    (l : Layout) (h : layoutArray sz al a.data.length = some l) :
    DynArray.dropSelf sz al a =
      (a.data.map Event.destroy ++ [Event.free a.ptr l], none) := by
  simp [DynArray.dropSelf, h, dropLoop_eq_map]

/-- Witness for C1: a three-element array of `Nat` (element size 8, align 8). -/
theorem c1_witness :
    layoutArray 8 8 3 = some ⟨24, 8⟩ ∧
    DynArray.dropSelf 8 8 (⟨1, [10, 20, 30]⟩ : DynArray Nat) =
      (List.map Event.destroy [10, 20, 30] ++ [Event.free 1 ⟨24, 8⟩], none) :=
  ⟨by decide,
   c1_drop_destroys_in_order_then_frees 8 8 ⟨1, [10, 20, 30]⟩ ⟨24, 8⟩ (by decide)⟩

/-- Claim C3: decomposing an initialized array into its raw parts and
reconstructing from those same parts (the pointer, and the block contents
that are still untouched at that pointer) yields an array observably equal
to the original — same pointer, same length, same element sequence — and
the reported length is the original's.  `into_parts` wraps the array in
`ManuallyDrop`, so no destructor runs and no element is duplicated: both
functions are pure projections/constructors emitting no event. -/
theorem c3_parts_roundtrip {T : Type} (a : DynArray T) :
    DynArray.from_parts (DynArray.into_parts a).1 a.data = a ∧
    (DynArray.into_parts a).2 = a.data.length :=
  ⟨rfl, rfl⟩

/-- Claim C4: consuming iteration started on an array of length `N` yields
exactly the `N` original elements in index order (any fuel `≥ N` drains the
whole sequence); a `next` call with cursor `< length` returns the element at
the cursor by value and advances the cursor by one; once the cursor has
reached the length, every further `next` returns exhaustion and leaves the
state untouched. -/
theorem c4_consuming_iteration {T : Type} [Inhabited T] (a : DynArray T)
    (it : IntoIter T) :
    (∀ k : Nat, drainFuel (a.data.length + k) (DynArray.intoIter a) = a.data) ∧
    (it.idx < it.dyn_array.data.length →
      IntoIter.next it =
        (some (it.dyn_array.data.getD it.idx default), ⟨it.dyn_array, it.idx + 1⟩)) ∧
    (it.dyn_array.data.length ≤ it.idx → IntoIter.next it = (none, it)) := by
  refine ⟨?_, ?_, ?_⟩
  · intro k
    have h := drainFuel_spec a.data a.ptr a.data 0 k (by simp)
    simpa [DynArray.intoIter, DynArray.from_parts, DynArray.into_parts] using h
  · intro h
    simp [IntoIter.next, Nat.not_le.mpr h]
  · intro h
    simp [IntoIter.next, h]

/-- Witness for C4: the array `[5, 6, 7]`, one mid-iteration `next`, and one
`next` at exhaustion. -/
theorem c4_witness :
    drainFuel (3 + 0) (DynArray.intoIter (⟨2, [5, 6, 7]⟩ : DynArray Nat)) = [5, 6, 7] ∧
    IntoIter.next (⟨⟨2, [5, 6, 7]⟩, 1⟩ : IntoIter Nat) = (some 6, ⟨⟨2, [5, 6, 7]⟩, 2⟩) ∧
    IntoIter.next (⟨⟨2, [5, 6, 7]⟩, 3⟩ : IntoIter Nat) = (none, ⟨⟨2, [5, 6, 7]⟩, 3⟩) :=
  ⟨(c4_consuming_iteration ⟨2, [5, 6, 7]⟩ ⟨⟨2, [5, 6, 7]⟩, 1⟩).1 0,
   (c4_consuming_iteration ⟨2, [5, 6, 7]⟩ ⟨⟨2, [5, 6, 7]⟩, 1⟩).2.1 (by decide),
   (c4_consuming_iteration ⟨2, [5, 6, 7]⟩ ⟨⟨2, [5, 6, 7]⟩, 3⟩).2.2 (by decide)⟩

/-- Claim C5: dropping a consuming iterator while still active
(cursor `< length`) releases the backing block but emits no destroy event:
the destructors of the elements not yet yielded do not run (every slot holds
a `ManuallyDrop<T>`, whose drop is a no-op), and elements already yielded —
which left the iterator by value — are not destroyed a second time. -/
theorem c5_abandoned_iter_frees_without_destroy (sz al : Nat) {T : Type}
    (it : IntoIter T) (l : Layout)
    (hl : layoutArray sz al it.dyn_array.data.length = some l)
    (hactive : it.idx < it.dyn_array.data.length) :
    IntoIter.dropSelf sz al it = ([Event.free it.dyn_array.ptr l], none) := by
  simp [IntoIter.dropSelf, hl]

/-- Witness for C5: an iterator over two `Nat` elements abandoned after one
`next` (cursor 1 of 2). -/
theorem c5_witness :
    IntoIter.dropSelf 8 8 (⟨⟨3, [1, 2]⟩, 1⟩ : IntoIter Nat) =
      ([Event.free 3 ⟨16, 8⟩], none) :=
  c5_abandoned_iter_frees_without_destroy 8 8 ⟨⟨3, [1, 2]⟩, 1⟩ ⟨16, 8⟩
    (by decide) (by decide)

/-- Claim C6 is refuted by the code: when the allocator cannot provide the
requested memory it returns null (`allocRet = 0`), and `new_uninit` — which
never inspects the pointer `alloc` returned — wraps the null pointer and
RETURNS an instance instead of terminating the program.  Here: 5 elements
of size 1, allocator answers null, and the call evaluates to `.ok`. -/
theorem c6_null_alloc_returns_instance :
    DynArray.new_uninit Unit 1 1 0 5 =
      .ok (DynArray.from_parts 0 (List.replicate 5 none)) := rfl

/-- Claim C2: construction from an exact producer that reports count `n` and
will yield `items` allocates for `n` (length of the layout request and of
the result), pulls exactly `n` values in order into slots `[0, n)` when the
producer is honest, and panics — `Panic.falseSizeHint`, an immediate fatal
stop, not a returned `Result` — whenever the producer yields fewer or more
items than it reported. -/
theorem c2_from_iter_exact_or_fatal {T : Type} [Inhabited T] (sz al : Nat) (p : Ptr)
    (n : Nat) (items : List T) (l : Layout) (hl : layoutArray sz al n = some l) :
    (items.length = n →
      DynArray.from_iter sz al p ⟨n, items⟩ = .ok (DynArray.from_parts p items)) ∧
    (items.length < n →
      DynArray.from_iter sz al p ⟨n, items⟩ = .error .falseSizeHint) ∧
    (n < items.length →
      DynArray.from_iter sz al p ⟨n, items⟩ = .error .falseSizeHint) := by
  refine ⟨?_, ?_, ?_⟩
  · intro hlen
    subst hlen
    simp only [DynArray.from_iter, DynArray.new_uninit, hl, DynArray.from_parts]
    rw [fillFromIter_ge items.length items Nat.le.refl]
    simp [List.take_length, List.drop_length, assume_init_map_some, DynArray.from_parts]
  · intro hlen
    simp only [DynArray.from_iter, DynArray.new_uninit, hl, DynArray.from_parts]
    rw [fillFromIter_lt n items hlen]
  · intro hlen
    simp only [DynArray.from_iter, DynArray.new_uninit, hl, DynArray.from_parts]
    rw [fillFromIter_ge n items (Nat.le_of_lt hlen)]
    have hne : (items.drop n).isEmpty = false := by
      rw [List.isEmpty_eq_false_iff_exists_mem]
      rcases List.exists_mem_of_length_pos (l := items.drop n) (by simp; omega) with ⟨x, hx⟩
      exact ⟨x, hx⟩
    simp [hne]

/-- Witness for C2: reported count 5 with exactly 5 items succeeds in order;
with only 4 items, or with 6 items, it panics with the size-hint message. -/
theorem c2_witness :
    DynArray.from_iter 4 4 7 (⟨5, [1, 2, 3, 4, 5]⟩ : ExactIter Nat) =
        .ok (DynArray.from_parts 7 [1, 2, 3, 4, 5]) ∧
    DynArray.from_iter 4 4 7 (⟨5, [1, 2, 3, 4]⟩ : ExactIter Nat) =
        .error .falseSizeHint ∧
    DynArray.from_iter 4 4 7 (⟨5, [1, 2, 3, 4, 5, 6]⟩ : ExactIter Nat) =
        .error .falseSizeHint :=
  ⟨(c2_from_iter_exact_or_fatal 4 4 7 5 [1, 2, 3, 4, 5] ⟨20, 4⟩ (by decide)).1 (by decide),
   (c2_from_iter_exact_or_fatal 4 4 7 5 [1, 2, 3, 4] ⟨20, 4⟩ (by decide)).2.1 (by decide),
   (c2_from_iter_exact_or_fatal 4 4 7 5 [1, 2, 3, 4, 5, 6] ⟨20, 4⟩ (by decide)).2.2 (by decide)⟩

/-- Claim C7: `new(n)` (allocate-default) returns an initialized array in
which every slot, in index order, holds the default value, and consuming it
fully yields exactly `n` elements all equal to the default in index order. -/
theorem c7_new_fills_default {T : Type} [Inhabited T] (sz al : Nat) (p : Ptr)
    (dflt : T) (n : Nat) (l : Layout) (hl : layoutArray sz al n = some l) :
    DynArray.new sz al p dflt n = .ok (DynArray.from_parts p (List.replicate n dflt)) ∧
    ∀ k : Nat,
      drainFuel (n + k) (DynArray.intoIter (DynArray.from_parts p (List.replicate n dflt))) =
        List.replicate n dflt := by
  constructor
  · simp [DynArray.new, DynArray.new_uninit, hl, DynArray.from_parts,
      fillDefault_replicate, assume_init_replicate_some]
  · intro k
    have h := drainFuel_spec (List.replicate n dflt) p (List.replicate n dflt) 0 k (by simp)
    simpa [DynArray.intoIter, DynArray.from_parts, DynArray.into_parts] using h

/-- Witness for C7: `allocate_default(20)` at an integer type (`Int`, default
0) and its full consumption, exactly as the spec's example requires. -/
theorem c7_witness :
    DynArray.new 4 4 7 (0 : Int) 20 = .ok (DynArray.from_parts 7 (List.replicate 20 0)) ∧
    drainFuel (20 + 0)
        (DynArray.intoIter (DynArray.from_parts 7 (List.replicate 20 (0 : Int)))) =
      List.replicate 20 0 :=
  ⟨(c7_new_fills_default 4 4 7 0 20 ⟨80, 4⟩ (by decide)).1,
   (c7_new_fills_default 4 4 7 0 20 ⟨80, 4⟩ (by decide)).2 0⟩

/-- Claim C8: allocating with length 0 always succeeds — the layout request
`0 * sz` can never exceed `isize::MAX`, so `Layout::array` cannot panic —
and produces an array of length 0; dropping it emits no destroy event, only
the release of the (empty) block. -/
theorem c8_zero_length_safe (T : Type) [Inhabited T] (sz al : Nat) (p : Ptr) :
    DynArray.new_uninit T sz al p 0 = .ok (DynArray.from_parts p []) ∧
    (DynArray.assume_init (DynArray.from_parts p ([] : List (MaybeUninit T)))).len = 0 ∧
    DynArray.dropSelf sz al
        (DynArray.assume_init (DynArray.from_parts p ([] : List (MaybeUninit T)))) =
      ([Event.free p ⟨0, al⟩], none) := by
  refine ⟨?_, rfl, ?_⟩
  · simp [DynArray.new_uninit, layoutArray, DynArray.from_parts]
  · simp [DynArray.dropSelf, DynArray.assume_init, DynArray.from_parts, layoutArray,
      dropLoop]

/-- Claim C9: `Clone` goes through `From<&[T]>`, which allocates a fresh
block: the allocator's answer `p` is distinct from every live block, in
particular from the source's (`hfresh`).  Hence the clone does not share the
source's memory: a store performed through the original's mutable view
(rooted at `a.ptr`) leaves the clone unchanged, and a store through the
clone's view (rooted at `p`) leaves the original unchanged. -/
theorem c9_clone_independent {T : Type} [Inhabited T] (sz al : Nat) (cloneF : T → T)
    (p : Ptr) (a : DynArray T) (i : Nat) (v w : T) (l : Layout)
    (hl : layoutArray sz al a.data.length = some l) (hfresh : p ≠ a.ptr) :
    DynArray.cloneSelf sz al cloneF p a =
        .ok (DynArray.from_parts p (a.data.map cloneF)) ∧
    memWrite a.ptr i v (DynArray.from_parts p (a.data.map cloneF)) =
        DynArray.from_parts p (a.data.map cloneF) ∧
    memWrite p i w a = a := by
  refine ⟨?_, ?_, ?_⟩
  · simp [DynArray.cloneSelf, DynArray.deref, DynArray.from_slice, DynArray.new_uninit,
      hl, DynArray.from_parts, zipClone_replicate, DynArray.assume_init,
      Function.comp_def]
  · simp [memWrite, DynArray.from_parts, hfresh]
  · simp [memWrite, DynArray.from_parts, Ne.symm hfresh]

/-- Witness for C9: cloning `⟨1, [4, 5]⟩ : DynArray Nat` into the fresh
block 2, then writing index 0 through either view. -/
theorem c9_witness :
    DynArray.cloneSelf 8 8 id 2 (⟨1, [4, 5]⟩ : DynArray Nat) =
        .ok (DynArray.from_parts 2 (List.map id [4, 5])) ∧
    memWrite 1 0 9 (DynArray.from_parts 2 (List.map id [4, 5])) =
        DynArray.from_parts 2 (List.map id [4, 5]) ∧
    memWrite 2 0 9 (⟨1, [4, 5]⟩ : DynArray Nat) = ⟨1, [4, 5]⟩ :=
  c9_clone_independent 8 8 id 2 ⟨1, [4, 5]⟩ 0 9 9 ⟨16, 8⟩ (by decide) (by decide)

/-- Claim C10: the `Default` impl (`new_uninit(0).assume_init()`) always
returns an initialized array of length 0, and dropping that array emits no
destroy event — it is safe to destroy. -/
theorem c10_default_empty (T : Type) [Inhabited T] (sz al : Nat) (p : Ptr) :
    DynArray.mkDefault T sz al p = .ok (DynArray.from_parts p ([] : List T)) ∧
    (DynArray.from_parts p ([] : List T)).len = 0 ∧
    DynArray.dropSelf sz al (DynArray.from_parts p ([] : List T)) =
      ([Event.free p ⟨0, al⟩], none) := by
  refine ⟨?_, rfl, ?_⟩
  · simp [DynArray.mkDefault, DynArray.new_uninit, layoutArray, DynArray.assume_init,
      DynArray.from_parts]
  · simp [DynArray.dropSelf, DynArray.from_parts, layoutArray, dropLoop]
